import Mathlib

/-
Shallow embedding of the wattslab_atlas client library
(src/wattslab_atlas/auth.py and src/wattslab_atlas/client.py).

HTTP traffic is modelled by an environment function from requests to
outcomes (a response, or a raised transport exception).  Each Python
method that touches `self` becomes a Lean function from the explicit
state to a record holding the returned value (or raised error), the
state after the call, and the list of HTTP requests issued during the
call.  Python truthiness of optional strings and of dictionaries is
modelled explicitly.
-/

namespace Atlas

/-- JSON-like values, standing for the dictionaries produced by
`response.json()` and sent as request payloads. -/
inductive JsonVal where
  | str (s : String)
  | num (n : Int)
  | bool (b : Bool)
  | obj (fields : List (String × JsonVal))
  | arr (elems : List JsonVal)

/-- An outgoing HTTP request: method, full URL, optional JSON payload,
query parameters, multipart file parts (field name, file name, content
type), form data, cookies, and the timeout if one was set. -/
structure HttpRequest where
  method : String
  url : String
  jsonBody : Option JsonVal := none
  params : List (String × String) := []
  files : List (String × String × String) := []
  formData : List (String × String) := []
  cookies : List (String × String) := []
  timeout : Option Nat := none

/-- A raw HTTP response: status code, body text, the result of trying to
parse the body as JSON (`none` means `response.json()` raises), and the
response cookies. -/
structure HttpResponse where
  status : Nat
  text : String
  jsonBody : Option JsonVal := none
  respCookies : List (String × String) := []

/-- What issuing a request can produce: a response from the server, or a
transport-level exception (connection error, timeout, ...). -/
inductive HttpOutcome where
  | resp (r : HttpResponse)
  | exn (msg : String)

/-- The network environment: what outcome each issued request gets. -/
abbrev Net := HttpRequest → HttpOutcome

/-- Modelled from the spec: the error taxonomy of
`wattslab_atlas/exceptions.py`, which is imported by the sources but not
part of them.  Section 7 of the spec lists four distinct error kinds:
AuthenticationError, ValidationError, ResourceNotFoundError, and the
generic APIError carrying a status code alongside its message. -/
inductive AtlasError where
  | authenticationError (msg : String)
  | validationError (msg : String)
  | resourceNotFoundError (msg : String)
  | apiError (msg : String) (status : Nat)

/-- An exception escaping a client façade method: one of the library's
own errors, or an uncaught exception from the transport layer. -/
inductive PyErr where
  | atlas (e : AtlasError)
  | transport (msg : String)

/-- Whether an escaped exception is an AuthenticationError. -/
def PyErr.isAuthenticationError : PyErr → Bool
  | .atlas (AtlasError.authenticationError _) => true
  | _ => false

/-- Modelled from the spec: one record of the token persistence store of
`wattslab_atlas/storage.py` (not part of the sources).  Section 6 of the
spec: key (email) maps to a token together with its expiry. -/
structure StoredToken where
  token : String
  expiry : Nat

/-- Modelled from the spec: `TokenStorage.get_token(email)` looks up the
persisted token for an email. -/
def get_token (st : List (String × StoredToken)) (email : String) : Option String :=
  (st.find? (fun p => p.1 == email)).map (fun p => p.2.token)

/-- Modelled from the spec: `TokenStorage.save_token(email, token,
expires_in)` persists the token under the email with expiry `expires_in`
seconds from the current time. -/
def save_token (st : List (String × StoredToken)) (email token : String)
    (now expires_in : Nat) : List (String × StoredToken) :=
  (email, ⟨token, now + expires_in⟩) :: st.filter (fun p => !(p.1 == email))

/-- Modelled from the spec: `TokenStorage.delete_token(email)` removes
the persisted token for an email. -/
def delete_token (st : List (String × StoredToken)) (email : String) :
    List (String × StoredToken) :=
  st.filter (fun p => !(p.1 == email))

/-- Python truthiness of an `Optional[str]`: `None` and the empty string
are falsy. -/
def truthyOpt : Option String → Bool
  | none => false
  | some s => s != ""

/-- `cookies.get(name)` on a cookie dictionary. -/
def cookieGet (c : List (String × String)) (k : String) : Option String :=
  (c.find? (fun p => p.1 == k)).map (fun p => p.2)

/-- Stands for `str(e)` of a JSON decoding exception raised by
`response.json()`; the claims never inspect this text. -/
def jsonDecodeErrMsg : String := "JSON decode error"

/-- Stands for `str(e)` of a `requests.HTTPError` built by
`raise_for_status()`; the claims never inspect this text. -/
def httpErrorText (r : HttpResponse) : String :=
  "HTTP error " ++ toString r.status

/-- The mutable state of `AuthManager` (auth.py lines 15-21), together
with the contents of its token storage collaborator. -/
structure AuthState where
  base_url : String
  storage : List (String × StoredToken)
  jwt_token : Option String
  email : Option String
  token_expiry : Option Nat
  cookies : List (String × String)

/-- `AuthManager.__init__`: fresh manager over a given storage. -/
def AuthManager_init (base_url : String) (storage : List (String × StoredToken)) : AuthState :=
  { base_url := base_url, storage := storage, jwt_token := none,
    email := none, token_expiry := none, cookies := [] }

/-- Result of one `AuthManager` method call: the returned value or the
raised `AuthenticationError`, the state after the call, and the HTTP
requests issued during it. -/
structure AuthOut (α : Type) where
  result : Except AtlasError α
  state : AuthState
  trace : List HttpRequest

/-- The probe request issued by `check_auth` (auth.py line 126). -/
def checkReq (s : AuthState) : HttpRequest :=
  { method := "GET", url := s.base_url ++ "/check", cookies := s.cookies }

/-- `AuthManager.check_auth` (auth.py lines 115-129): returns `False`
without a request when no token is held; otherwise issues one probe and
returns whether the status is 200, any exception collapsing to `False`.
Assigns nothing to `self`, so no state is returned. -/
def check_auth (s : AuthState) (net : Net) : Bool × List HttpRequest :=
  if !truthyOpt s.jwt_token then (false, [])
  else
    match net (checkReq s) with
    | .resp r => (r.status == 200, [checkReq s])
    | .exn _ => (false, [checkReq s])

/-- The magic-link request issued by `login` (auth.py line 55). -/
def loginReq (base email : String) : HttpRequest :=
  { method := "POST", url := base ++ "/login",
    jsonBody := some (.obj [("email", .str email)]) }

/-- The fall-through tail of `login` (auth.py lines 53-66): POST to
`/login`, raising `AuthenticationError` on HTTP error (with the response
text), on JSON decode failure, or on a transport exception.  `tr` is the
trace accumulated before this phase. -/
def request_magic_link (s : AuthState) (net : Net) (email : String)
    (tr : List HttpRequest) : AuthOut JsonVal :=
  let req := loginReq s.base_url email
  match net req with
  | .resp r =>
    if 400 ≤ r.status then
      { result := .error (.authenticationError ("Login failed: " ++ r.text)),
        state := s, trace := tr ++ [req] }
    else
      match r.jsonBody with
      | some j => { result := .ok j, state := s, trace := tr ++ [req] }
      | none =>
        { result := .error (.authenticationError ("Login failed: " ++ jsonDecodeErrMsg)),
          state := s, trace := tr ++ [req] }
  | .exn m =>
    { result := .error (.authenticationError ("Login failed: " ++ m)),
      state := s, trace := tr ++ [req] }

/-- `AuthManager.login` (auth.py lines 23-66): record the email; if a
stored token exists (and is truthy), adopt it, probe with `check_auth`,
and either keep it or discard it (deleting it from storage) and fall
through to requesting a new magic link. -/
def login (s0 : AuthState) (net : Net) (email : String)
    (use_stored_token : Bool) : AuthOut JsonVal :=
  let s1 := { s0 with email := some email }
  if use_stored_token then
    match get_token s1.storage email with
    | some t =>
      if t != "" then
        let s2 := { s1 with jwt_token := some t, cookies := [("jwt", t)] }
        let ca := check_auth s2 net
        if ca.1 then
          { result := .ok (.obj [("message", .str "Using stored credentials"),
                                 ("success", .bool true)]),
            state := s2, trace := ca.2 }
        else
          let s3 := { s2 with storage := delete_token s2.storage email,
                              jwt_token := none, cookies := [] }
          request_magic_link s3 net email ca.2
      else request_magic_link s1 net email []
    | none => request_magic_link s1 net email []
  else request_magic_link s1 net email []

/-- The validation request issued by `validate_magic_link`
(auth.py lines 87-89). -/
def validateReq (base email magic : String) : HttpRequest :=
  { method := "POST", url := base ++ "/validate",
    jsonBody := some (.obj [("email", .str email), ("magic_link", .str magic)]) }

/-- `AuthManager.validate_magic_link` (auth.py lines 68-113): require a
truthy email (argument or stored); POST the magic link; on success parse
the body, and if the response carries a truthy `jwt` cookie adopt it,
set the in-memory expiry 48 hours from now, and persist it with
`expires_in=172800`.  HTTP 400 maps to "Invalid or expired magic link";
other failures to a generic `AuthenticationError`.  `now` is the current
time in seconds, standing for `datetime.now()`. -/
def validate_magic_link (s : AuthState) (net : Net) (now : Nat)
    (magic_link : String) (email : Option String) : AuthOut JsonVal :=
  if !truthyOpt email && !truthyOpt s.email then
    { result := .error (.authenticationError "Email is required for validation"),
      state := s, trace := [] }
  else
    let use_email_opt := if truthyOpt email then email else s.email
    if !truthyOpt use_email_opt then
      { result := .error (.authenticationError "Email is required"),
        state := s, trace := [] }
    else
      let use_email := use_email_opt.getD ""
      let req := validateReq s.base_url use_email magic_link
      match net req with
      | .resp r =>
        if 400 ≤ r.status then
          if r.status == 400 then
            { result := .error (.authenticationError "Invalid or expired magic link"),
              state := s, trace := [req] }
          else
            { result := .error (.authenticationError ("Validation failed: " ++ r.text)),
              state := s, trace := [req] }
        else
          match r.jsonBody with
          | none =>
            { result := .error (.authenticationError
                ("Validation failed: " ++ jsonDecodeErrMsg)),
              state := s, trace := [req] }
          | some j =>
            if !r.respCookies.isEmpty then
              match cookieGet r.respCookies "jwt" with
              | some t =>
                if t != "" then
                  { result := .ok j,
                    state := { s with jwt_token := some t,
                                      cookies := [("jwt", t)],
                                      token_expiry := some (now + 172800),
                                      storage := save_token s.storage use_email t now 172800 },
                    trace := [req] }
                else { result := .ok j, state := s, trace := [req] }
              | none => { result := .ok j, state := s, trace := [req] }
            else { result := .ok j, state := s, trace := [req] }
      | .exn m =>
        { result := .error (.authenticationError ("Validation failed: " ++ m)),
          state := s, trace := [req] }

/-- The logout request issued by `logout` (auth.py line 134). -/
def logoutReq (s : AuthState) : HttpRequest :=
  { method := "POST", url := s.base_url ++ "/logout", cookies := s.cookies }

/-- `AuthManager.logout` (auth.py lines 131-150): POST to `/logout`; on
a non-error status delete the stored token for the current email (if
truthy) and clear the in-memory token, email and cookies, then parse the
body.  Every exception surfaces as `AuthenticationError`; note the body
is parsed after the state was already cleared. -/
def logout (s : AuthState) (net : Net) : AuthOut JsonVal :=
  let req := logoutReq s
  match net req with
  | .resp r =>
    if 400 ≤ r.status then
      { result := .error (.authenticationError ("Logout failed: " ++ httpErrorText r)),
        state := s, trace := [req] }
    else
      let s2 := { s with
        storage := if truthyOpt s.email then delete_token s.storage (s.email.getD "")
                   else s.storage,
        jwt_token := none, email := none, cookies := [] }
      match r.jsonBody with
      | some j => { result := .ok j, state := s2, trace := [req] }
      | none =>
        { result := .error (.authenticationError ("Logout failed: " ++ jsonDecodeErrMsg)),
          state := s2, trace := [req] }
  | .exn m =>
    { result := .error (.authenticationError ("Logout failed: " ++ m)),
      state := s, trace := [req] }

/-- `AuthManager.get_headers` (auth.py lines 152-154): always `\x7b\x7d`. -/
def get_headers (_s : AuthState) : List (String × String) := []

/-- `AuthManager.get_cookies` (auth.py lines 156-158). -/
def get_cookies (s : AuthState) : List (String × String) := s.cookies

/-- The state of `AtlasClient` (client.py lines 26-44): base URL,
timeout, and the embedded `AuthManager`. -/
structure ClientState where
  base_url : String
  timeout : Nat
  auth : AuthState

/-- The keyword arguments a façade method passes to `_request`. -/
structure ReqOpts where
  params : List (String × String) := []
  jsonBody : Option JsonVal := none
  files : List (String × String × String) := []
  formData : List (String × String) := []

/-- The request `_request` issues (client.py lines 94-100): URL is base
plus endpoint, cookies come from `auth.get_cookies()`, and the client
timeout is attached. -/
def buildRequest (c : ClientState) (method endpoint : String) (opts : ReqOpts) : HttpRequest :=
  { method := method, url := c.base_url ++ endpoint,
    jsonBody := opts.jsonBody, params := opts.params,
    files := opts.files, formData := opts.formData,
    cookies := get_cookies c.auth, timeout := some c.timeout }

/-- Result of one `AtlasClient` method call: the returned value or the
escaped exception, the client state after the call, and the requests
issued. -/
structure ClientOut (α : Type) where
  result : Except PyErr α
  state : ClientState
  trace : List HttpRequest

/-- `AtlasClient._request` (client.py lines 92-109): issue one
authenticated request; 401 raises `APIError("Authentication required.
Please login first.", 401)`, 404 raises `ResourceNotFoundError`, any
other status of 400 or more raises `APIError` with the body text and
status, and otherwise the response is returned.  Transport exceptions
are not caught here. -/
def atlas_request (c : ClientState) (net : Net) (method endpoint : String)
    (opts : ReqOpts) : ClientOut HttpResponse :=
  let req := buildRequest c method endpoint opts
  match net req with
  | .exn m => { result := .error (.transport m), state := c, trace := [req] }
  | .resp r =>
    if r.status == 401 then
      { result := .error (.atlas (.apiError "Authentication required. Please login first." 401)),
        state := c, trace := [req] }
    else if r.status == 404 then
      { result := .error (.atlas (.resourceNotFoundError ("Resource not found: " ++ endpoint))),
        state := c, trace := [req] }
    else if 400 ≤ r.status then
      { result := .error (.atlas (.apiError ("API error: " ++ r.text) r.status)),
        state := c, trace := [req] }
    else { result := .ok r, state := c, trace := [req] }

/-- `Path(file_path).name`: the final path component. -/
def pathName (p : String) : String :=
  ((p.splitOn "/").getLast?).getD p

/-- `AtlasClient.upload_paper` (client.py lines 197-225): raise
`ValidationError` before any request when the path does not exist on the
local filesystem `fs`; otherwise POST the file as multipart form data to
`/add_paper` and return the parsed body.  A JSON decode failure here is
not caught, so it escapes as a transport-level exception. -/
def upload_paper (c : ClientState) (net : Net) (fs : String → Bool)
    (project_id : String) (file_path : String) (strategy_type : String) :
    ClientOut JsonVal :=
  if !fs file_path then
    { result := .error (.atlas (.validationError ("File not found: " ++ file_path))),
      state := c, trace := [] }
  else
    let opts : ReqOpts :=
      { files := [("files[]", pathName file_path, "application/pdf")],
        formData := [("project_id", project_id), ("strategy_type", strategy_type)] }
    let out := atlas_request c net "POST" "/add_paper" opts
    match out.result with
    | .error e => { result := .error e, state := out.state, trace := out.trace }
    | .ok r =>
      match r.jsonBody with
      | some j => { result := .ok j, state := out.state, trace := out.trace }
      | none =>
        { result := .error (.transport jsonDecodeErrMsg),
          state := out.state, trace := out.trace }

/-- `AtlasClient.check_task_status` (client.py lines 227-239): GET
`/add_paper` with the task id as query parameter and return the parsed
body (the declared model type here is a plain dictionary). -/
def check_task_status (c : ClientState) (net : Net) (task_id : String) :
    ClientOut JsonVal :=
  let out := atlas_request c net "GET" "/add_paper" { params := [("task_id", task_id)] }
  match out.result with
  | .error e => { result := .error e, state := out.state, trace := out.trace }
  | .ok r =>
    match r.jsonBody with
    | some j => { result := .ok j, state := out.state, trace := out.trace }
    | none =>
      { result := .error (.transport jsonDecodeErrMsg),
        state := out.state, trace := out.trace }

/-- The cookie/token invariant of `AuthManager`: no token means no
cookies, and a held token `t` is nonempty with cookie set exactly
`\x7b"jwt": t\x7d`. -/
def authInv (s : AuthState) : Prop :=
  (s.jwt_token = none → s.cookies = []) ∧
  (∀ t, s.jwt_token = some t → t ≠ "" ∧ s.cookies = [("jwt", t)])

/- Concrete states and environments used to instantiate the theorems. -/

/-- A network environment answering every request the same way. -/
def netConst (o : HttpOutcome) : Net := fun _ => o

/-- A fresh, unauthenticated manager state. -/
def exampleAuth : AuthState :=
  { base_url := "https://atlas.example/api", storage := [], jwt_token := none,
    email := none, token_expiry := none, cookies := [] }

/-- An authenticated manager state holding token "tok123". -/
def exampleAuthTok : AuthState :=
  { base_url := "https://atlas.example/api", storage := [],
    jwt_token := some "tok123", email := some "user@example.org",
    token_expiry := none, cookies := [("jwt", "tok123")] }

/-- An unauthenticated manager state that has an email recorded. -/
def exampleAuthEmail : AuthState :=
  { base_url := "https://atlas.example/api", storage := [], jwt_token := none,
    email := some "user@example.org", token_expiry := none, cookies := [] }

/-- A client wrapping the fresh manager state. -/
def exampleClient : ClientState :=
  { base_url := "https://atlas.example/api", timeout := 30, auth := exampleAuth }

/-- A 200 response with an empty JSON object body and no cookies. -/
def respOkNoCookies : HttpResponse :=
  { status := 200, text := "ok", jsonBody := some (.obj []) }

/-- A 401 response. -/
def resp401 : HttpResponse := { status := 401, text := "unauthorized" }

/-- Whether a façade call's outcome is an escaped AuthenticationError. -/
def resultIsAuthError {α : Type} : Except PyErr α → Bool
  | .error e => e.isAuthenticationError
  | .ok _ => false

/- Helper lemmas shared by the claim theorems. -/

/-- The fall-through phase of `login` never touches the state. -/
theorem request_magic_link_state (s : AuthState) (net : Net) (email : String)
    (tr : List HttpRequest) :
    (request_magic_link s net email tr).state = s := by
  unfold request_magic_link
  cases hnet : net (loginReq s.base_url email) with
  | resp r =>
    by_cases h : 400 ≤ r.status
    · simp [hnet, h]
    · cases hj : r.jsonBody <;> simp [hnet, h, hj]
  | exn m => simp [hnet]

/-- The fall-through phase of `login` always appends exactly the
magic-link request to the trace. -/
theorem request_magic_link_trace (s : AuthState) (net : Net) (email : String)
    (tr : List HttpRequest) :
    (request_magic_link s net email tr).trace = tr ++ [loginReq s.base_url email] := by
  unfold request_magic_link
  cases hnet : net (loginReq s.base_url email) with
  | resp r =>
    by_cases h : 400 ≤ r.status
    · simp [hnet, h]
    · cases hj : r.jsonBody <;> simp [hnet, h, hj]
  | exn m => simp [hnet]

/-- `_request` never touches the client state. -/
theorem atlas_request_state (c : ClientState) (net : Net)
    (method endpoint : String) (opts : ReqOpts) :
    (atlas_request c net method endpoint opts).state = c := by
  unfold atlas_request
  cases hnet : net (buildRequest c method endpoint opts) with
  | resp r =>
    by_cases h1 : r.status = 401
    · simp [hnet, h1]
    · by_cases h2 : r.status = 404
      · simp [hnet, h1, h2]
      · by_cases h3 : 400 ≤ r.status <;> simp [hnet, h1, h2, h3]
  | exn m => simp [hnet]

/-- `_request` issues exactly the one request it builds. -/
theorem atlas_request_trace (c : ClientState) (net : Net)
    (method endpoint : String) (opts : ReqOpts) :
    (atlas_request c net method endpoint opts).trace = [buildRequest c method endpoint opts] := by
  unfold atlas_request
  cases hnet : net (buildRequest c method endpoint opts) with
  | resp r =>
    by_cases h1 : r.status = 401
    · simp [hnet, h1]
    · by_cases h2 : r.status = 404
      · simp [hnet, h1, h2]
      · by_cases h3 : 400 ≤ r.status <;> simp [hnet, h1, h2, h3]
  | exn m => simp [hnet]

/-- Truthiness of a missing optional string. -/
theorem truthyOpt_none : truthyOpt none = false := rfl

/-- A state with no token and no cookies satisfies the invariant. -/
theorem authInv_of_none (s : AuthState) (h1 : s.jwt_token = none)
    (h2 : s.cookies = []) : authInv s := by
  refine ⟨fun _ => h2, fun t ht => ?_⟩
  rw [h1] at ht
  cases ht

/-- A state holding a nonempty token with exactly its jwt cookie
satisfies the invariant. -/
theorem authInv_of_some (s : AuthState) (t : String) (h1 : s.jwt_token = some t)
    (ht : t ≠ "") (h2 : s.cookies = [("jwt", t)]) : authInv s := by
  refine ⟨fun hn => ?_, fun u hu => ?_⟩
  · rw [h1] at hn; cases hn
  · rw [h1] at hu
    cases hu
    exact ⟨ht, h2⟩

/-- The invariant only depends on the token and cookie fields. -/
theorem authInv_same (s s2 : AuthState) (hi : authInv s)
    (h1 : s2.jwt_token = s.jwt_token) (h2 : s2.cookies = s.cookies) :
    authInv s2 := by
  refine ⟨fun hn => ?_, fun u hu => ?_⟩
  · rw [h1] at hn
    rw [h2]
    exact hi.1 hn
  · rw [h1] at hu
    rw [h2]
    exact hi.2 u hu

/-- The authenticated example state satisfies the cookie invariant. -/
theorem exampleAuthTok_inv : authInv exampleAuthTok :=
  authInv_of_some exampleAuthTok "tok123" rfl (by decide) rfl

/-- C7: for every file path that does not exist on the local filesystem,
`upload_paper` fails with ValidationError, issues no network request,
and leaves the client state unchanged. -/
theorem upload_paper_missing_file (c : ClientState) (net : Net) (fs : String → Bool)
    (project_id file_path strategy_type : String) (h : fs file_path = false) :
    upload_paper c net fs project_id file_path strategy_type =
      { result := .error (.atlas (.validationError ("File not found: " ++ file_path))),
        state := c, trace := [] } := by
  simp [upload_paper, h]

/-- Witness for C7 at a concrete missing file. -/
theorem upload_paper_missing_file_witness :
    upload_paper exampleClient (netConst (.exn "unused")) (fun _ => false)
        "proj-1" "missing.pdf" "assistant_api" =
      { result := .error (.atlas (.validationError ("File not found: " ++ "missing.pdf"))),
        state := exampleClient, trace := [] } :=
  upload_paper_missing_file exampleClient (netConst (.exn "unused")) (fun _ => false)
    "proj-1" "missing.pdf" "assistant_api" rfl

/-- C8: `validate_magic_link` called without an email argument while no
truthy email is recorded on the manager fails with AuthenticationError
and issues no network request. -/
theorem validate_magic_link_requires_email (s : AuthState) (net : Net) (now : Nat)
    (magic_link : String) (h : truthyOpt s.email = false) :
    validate_magic_link s net now magic_link none =
      { result := .error (.authenticationError "Email is required for validation"),
        state := s, trace := [] } := by
  simp [validate_magic_link, truthyOpt_none, h]

/-- Witness for C8 on a fresh manager with no email set. -/
theorem validate_magic_link_requires_email_witness :
    validate_magic_link exampleAuth (netConst (.resp respOkNoCookies)) 1000 "magic" none =
      { result := .error (.authenticationError "Email is required for validation"),
        state := exampleAuth, trace := [] } :=
  validate_magic_link_requires_email exampleAuth (netConst (.resp respOkNoCookies))
    1000 "magic" rfl

/-- C6: `check_auth` returns a boolean in every case (it never lets an
exception escape, by its result type in this embedding): with no truthy
token it returns false and issues no request; with a token it issues
exactly the one probe request and returns true if and only if the
environment answers it with a response of status 200 — in particular a
transport exception yields false. -/
theorem check_auth_total_spec (s : AuthState) (net : Net) :
    (truthyOpt s.jwt_token = false → check_auth s net = (false, [])) ∧
    (truthyOpt s.jwt_token = true →
      (check_auth s net).2 = [checkReq s] ∧
      ((check_auth s net).1 = true ↔
        ∃ r, net (checkReq s) = .resp r ∧ r.status = 200)) := by
  constructor
  · intro h
    simp [check_auth, h]
  · intro h
    unfold check_auth
    cases hnet : net (checkReq s) with
    | resp r => simp [hnet, h]
    | exn m => simp [hnet, h]

/-- Witness for C6, at a token-less state and at a state holding a token
probed with a 200 answer. -/
theorem check_auth_total_spec_witness :
    check_auth exampleAuth (netConst (.exn "down")) = (false, []) ∧
    ((check_auth exampleAuthTok (netConst (.resp respOkNoCookies))).2 =
        [checkReq exampleAuthTok] ∧
      ((check_auth exampleAuthTok (netConst (.resp respOkNoCookies))).1 = true ↔
        ∃ r, netConst (.resp respOkNoCookies) (checkReq exampleAuthTok) = .resp r ∧
          r.status = 200)) :=
  ⟨(check_auth_total_spec exampleAuth (netConst (.exn "down"))).1 rfl,
   (check_auth_total_spec exampleAuthTok (netConst (.resp respOkNoCookies))).2 rfl⟩

/-- C3: from every starting state — also one holding no token — when the
logout request is answered with a non-error status, `logout` clears the
in-memory token, email and cookies. -/
theorem logout_clears_state (s : AuthState) (net : Net) (r : HttpResponse)
    (hnet : net (logoutReq s) = .resp r) (hst : r.status < 400) :
    (logout s net).state.jwt_token = none ∧
    (logout s net).state.email = none ∧
    (logout s net).state.cookies = [] := by
  have h : ¬ 400 ≤ r.status := by omega
  unfold logout
  cases hj : r.jsonBody <;> simp [hnet, h, hj]

/-- Witness for C3: logging out of a fresh, token-less manager. -/
theorem logout_clears_state_witness :
    (logout exampleAuth (netConst (.resp respOkNoCookies))).state.jwt_token = none ∧
    (logout exampleAuth (netConst (.resp respOkNoCookies))).state.email = none ∧
    (logout exampleAuth (netConst (.resp respOkNoCookies))).state.cookies = [] :=
  logout_clears_state exampleAuth (netConst (.resp respOkNoCookies)) respOkNoCookies
    rfl (by decide)

/-- C1, counterexample: a façade call answered with HTTP 401 does fail,
but with the generic `APIError` (status 401) of client.py line 103, not
with `AuthenticationError`. -/
theorem request_401_counterexample :
    (atlas_request exampleClient (netConst (.resp resp401)) "GET" "/features" {}).result =
      .error (.atlas (.apiError "Authentication required. Please login first." 401)) ∧
    resultIsAuthError
      (atlas_request exampleClient (netConst (.resp resp401)) "GET" "/features" {}).result
      = false :=
  ⟨rfl, rfl⟩

/-- C1, amended: for every façade operation through the shared request
path, an HTTP 401 answer makes the call fail — no value is returned —
with `APIError` carrying status 401 and the message telling the caller
to login first. -/
theorem request_401_raises_api_error (c : ClientState) (net : Net)
    (method endpoint : String) (opts : ReqOpts) (r : HttpResponse)
    (hnet : net (buildRequest c method endpoint opts) = .resp r)
    (hst : r.status = 401) :
    (atlas_request c net method endpoint opts).result =
      .error (.atlas (.apiError "Authentication required. Please login first." 401)) := by
  simp [atlas_request, hnet, hst]

/-- Witness for the amended C1 at a concrete 401 answer. -/
theorem request_401_raises_api_error_witness :
    (atlas_request exampleClient (netConst (.resp resp401)) "DELETE" "/features/f1" {}).result =
      .error (.atlas (.apiError "Authentication required. Please login first." 401)) :=
  request_401_raises_api_error exampleClient (netConst (.resp resp401))
    "DELETE" "/features/f1" {} resp401 rfl rfl

/-- C9: the uniform status mapping of the shared request path — 404
fails with `ResourceNotFoundError` naming the endpoint; any other status
of at least 400 besides 401 and 404 fails with `APIError` carrying the
original status and body text; a success status returns the response,
from which the calling method parses its declared model — shown for
`check_task_status`, which returns the parsed JSON body. -/
theorem request_status_mapping (c : ClientState) (net : Net)
    (method endpoint : String) (opts : ReqOpts) (r : HttpResponse)
    (hnet : net (buildRequest c method endpoint opts) = .resp r) :
    (r.status = 404 →
      (atlas_request c net method endpoint opts).result =
        .error (.atlas (.resourceNotFoundError ("Resource not found: " ++ endpoint)))) ∧
    (400 ≤ r.status → r.status ≠ 401 → r.status ≠ 404 →
      (atlas_request c net method endpoint opts).result =
        .error (.atlas (.apiError ("API error: " ++ r.text) r.status))) ∧
    (r.status < 400 → (atlas_request c net method endpoint opts).result = .ok r) ∧
    (∀ task_id j,
      net (buildRequest c "GET" "/add_paper" { params := [("task_id", task_id)] }) = .resp r →
      r.status < 400 → r.jsonBody = some j →
      (check_task_status c net task_id).result = .ok j) := by
  refine ⟨?_, ?_, ?_, ?_⟩
  · intro h404
    simp [atlas_request, hnet, h404]
  · intro h400 h401 h404
    simp [atlas_request, hnet, h401, h404, h400]
  · intro hlt
    have h401 : r.status ≠ 401 := by omega
    have h404 : r.status ≠ 404 := by omega
    have h400 : ¬ 400 ≤ r.status := by omega
    simp [atlas_request, hnet, h401, h404, h400]
  · intro task_id j hnet2 hlt hj
    have h401 : r.status ≠ 401 := by omega
    have h404 : r.status ≠ 404 := by omega
    have h400 : ¬ 400 ≤ r.status := by omega
    simp [check_task_status, atlas_request, hnet2, h401, h404, h400, hj]

/-- Witness for C9 at concrete 404, 500 and 200 answers. -/
theorem request_status_mapping_witness :
    ((atlas_request exampleClient
        (netConst (.resp { status := 404, text := "nope" })) "GET" "/user/papers" {}).result =
      .error (.atlas (.resourceNotFoundError ("Resource not found: " ++ "/user/papers")))) ∧
    ((atlas_request exampleClient
        (netConst (.resp { status := 500, text := "boom" })) "GET" "/user/papers" {}).result =
      .error (.atlas (.apiError ("API error: " ++ "boom") 500))) ∧
    ((atlas_request exampleClient
        (netConst (.resp respOkNoCookies)) "GET" "/user/papers" {}).result =
      .ok respOkNoCookies) ∧
    ((check_task_status exampleClient (netConst (.resp respOkNoCookies)) "task-9").result =
      .ok (.obj [])) :=
  ⟨(request_status_mapping exampleClient
      (netConst (.resp { status := 404, text := "nope" })) "GET" "/user/papers" {}
      { status := 404, text := "nope" } rfl).1 rfl,
   (request_status_mapping exampleClient
      (netConst (.resp { status := 500, text := "boom" })) "GET" "/user/papers" {}
      { status := 500, text := "boom" } rfl).2.1 (by decide) (by decide) (by decide),
   (request_status_mapping exampleClient
      (netConst (.resp respOkNoCookies)) "GET" "/user/papers" {}
      respOkNoCookies rfl).2.2.1 (by decide),
   (request_status_mapping exampleClient
      (netConst (.resp respOkNoCookies)) "GET" "/user/papers" {}
      respOkNoCookies rfl).2.2.2 "task-9" (.obj []) rfl (by decide) rfl⟩

/-- C5: when a truthy stored token exists for the email but the probe
(`check_auth`) rejects it, `login` deletes the stored token, clears the
adopted in-memory token and cookies, and falls through to issuing the
magic-link request to the login endpoint (after the probe request). -/
theorem login_invalid_stored_token (s0 : AuthState) (net : Net) (email t : String)
    (htok : get_token s0.storage email = some t) (hne : t ≠ "")
    (hprobe : (check_auth { s0 with
                            email := some email, jwt_token := some t,
                            cookies := [("jwt", t)] } net).1 = false) :
    (login s0 net email true).state.storage = delete_token s0.storage email ∧
    (login s0 net email true).state.jwt_token = none ∧
    (login s0 net email true).state.cookies = [] ∧
    (login s0 net email true).trace =
      (check_auth { s0 with
                    email := some email, jwt_token := some t,
                    cookies := [("jwt", t)] } net).2 ++ [loginReq s0.base_url email] := by
  have hbne : (t != "") = true := by
    simpa [bne_iff_ne] using hne
  simp only [login]
  simp only [htok, hbne]
  simp only [if_true, hprobe]
  simp [request_magic_link_state, request_magic_link_trace]

/-- Witness for C5: a stored token the probe answers with 401. -/
theorem login_invalid_stored_token_witness :
    (login { exampleAuth with storage := [("user@example.org", ⟨"oldtok", 5000⟩)] }
        (netConst (.resp resp401)) "user@example.org" true).state.storage =
      delete_token [("user@example.org", ⟨"oldtok", 5000⟩)] "user@example.org" ∧
    (login { exampleAuth with storage := [("user@example.org", ⟨"oldtok", 5000⟩)] }
        (netConst (.resp resp401)) "user@example.org" true).state.jwt_token = none ∧
    (login { exampleAuth with storage := [("user@example.org", ⟨"oldtok", 5000⟩)] }
        (netConst (.resp resp401)) "user@example.org" true).state.cookies = [] ∧
    (login { exampleAuth with storage := [("user@example.org", ⟨"oldtok", 5000⟩)] }
        (netConst (.resp resp401)) "user@example.org" true).trace =
      (check_auth { { exampleAuth with
                      storage := [("user@example.org", ⟨"oldtok", 5000⟩)] } with
                    email := some "user@example.org", jwt_token := some "oldtok",
                    cookies := [("jwt", "oldtok")] } (netConst (.resp resp401))).2 ++
        [loginReq ({ exampleAuth with
                     storage := [("user@example.org", ⟨"oldtok", 5000⟩)] }).base_url
          "user@example.org"] :=
  login_invalid_stored_token
    { exampleAuth with storage := [("user@example.org", ⟨"oldtok", 5000⟩)] }
    (netConst (.resp resp401)) "user@example.org" "oldtok" rfl (by decide) rfl

/-- C4: `get_headers` and `get_cookies` are pure accessors — plain
functions of the state in this embedding, issuing no request — returning
the empty header set and the current cookie set; under the cookie
invariant both are empty exactly when no token is held, a held token is
exposed as its jwt cookie, and the shared request path attaches exactly
`get_cookies` to the one request it issues. -/
theorem accessors_pure_spec (s : AuthState) (c : ClientState) (net : Net)
    (method endpoint : String) (opts : ReqOpts) :
    (get_headers s = [] ∧ get_cookies s = s.cookies) ∧
    (authInv s → (get_cookies s = [] ↔ s.jwt_token = none)) ∧
    (∀ t, s.jwt_token = some t → authInv s → get_cookies s = [("jwt", t)]) ∧
    ((buildRequest c method endpoint opts).cookies = get_cookies c.auth ∧
      (atlas_request c net method endpoint opts).trace =
        [buildRequest c method endpoint opts]) := by
  refine ⟨⟨rfl, rfl⟩, ?_, ?_, ⟨rfl, atlas_request_trace c net method endpoint opts⟩⟩
  · intro hi
    constructor
    · intro hc
      cases hj : s.jwt_token with
      | none => rfl
      | some t =>
        have h2 := (hi.2 t hj).2
        rw [show get_cookies s = s.cookies from rfl] at hc
        rw [hc] at h2
        cases h2
    · intro hn
      exact hi.1 hn
  · intro t hj hi
    exact (hi.2 t hj).2

/-- Witness for C4 at an unauthenticated and an authenticated state. -/
theorem accessors_pure_spec_witness :
    (get_cookies exampleAuth = [] ↔ exampleAuth.jwt_token = none) ∧
    get_cookies exampleAuthTok = [("jwt", "tok123")] :=
  ⟨(accessors_pure_spec exampleAuth exampleClient (netConst (.exn "down"))
      "GET" "/features" {}).2.1 (authInv_of_none exampleAuth rfl rfl),
   (accessors_pure_spec exampleAuthTok exampleClient (netConst (.exn "down"))
      "GET" "/features" {}).2.2.1 "tok123" rfl exampleAuthTok_inv⟩

/-- A 200 validation answer carrying a jwt cookie. -/
def respOkJwtCookie : HttpResponse :=
  { status := 200, text := "ok", jsonBody := some (.obj []),
    respCookies := [("jwt", "newtok")] }

/-- C2, counterexample: a validation call answered 2xx with a JSON body
but no cookies returns successfully, yet nothing is persisted and the
in-memory expiry stays unset (auth.py only persists inside the
`if response.cookies` block). -/
theorem validate_no_cookie_counterexample :
    (validate_magic_link exampleAuthEmail (netConst (.resp respOkNoCookies))
        1000 "magic" none).result = .ok (.obj []) ∧
    (validate_magic_link exampleAuthEmail (netConst (.resp respOkNoCookies))
        1000 "magic" none).state.token_expiry = none ∧
    (validate_magic_link exampleAuthEmail (netConst (.resp respOkNoCookies))
        1000 "magic" none).state.storage = [] :=
  ⟨rfl, rfl, rfl⟩

/-- C2, amended: a `validate_magic_link` call answered with a success
status, a parseable body and a nonempty `jwt` response cookie returns
the body, holds the cookie's token, sets the in-memory expiry to exactly
48 hours (172800 seconds) after the validation time, and persists the
token to storage with expiry exactly 172800 seconds after validation
time. -/
theorem validate_success_with_jwt_cookie (s : AuthState) (net : Net) (now : Nat)
    (magic e t : String) (r : HttpResponse) (j : JsonVal)
    (he : e ≠ "")
    (hnet : net (validateReq s.base_url e magic) = .resp r)
    (hst : r.status < 400) (hj : r.jsonBody = some j)
    (hc : cookieGet r.respCookies "jwt" = some t) (ht : t ≠ "") :
    (validate_magic_link s net now magic (some e)).result = .ok j ∧
    (validate_magic_link s net now magic (some e)).state.jwt_token = some t ∧
    (validate_magic_link s net now magic (some e)).state.token_expiry =
      some (now + 172800) ∧
    (validate_magic_link s net now magic (some e)).state.storage =
      save_token s.storage e t now 172800 ∧
    get_token (validate_magic_link s net now magic (some e)).state.storage e = some t ∧
    (((validate_magic_link s net now magic (some e)).state.storage.find?
        (fun p => p.1 == e)).map (fun p => p.2.expiry)) = some (now + 172800) := by
  have hbe : truthyOpt (some e) = true := by
    simpa [truthyOpt, bne_iff_ne] using he
  have hbt : (t != "") = true := by
    simpa [bne_iff_ne] using ht
  have hnonempty : r.respCookies.isEmpty = false := by
    cases hcc : r.respCookies with
    | nil => rw [hcc] at hc; cases hc
    | cons a l => simp
  have hlt : ¬ 400 ≤ r.status := by omega
  simp only [validate_magic_link, hbe, truthyOpt_none, Bool.not_true,
    Bool.false_and, Bool.if_true_left]
  simp only [if_true, Bool.not_false]
  simp [hbe, hnet, hlt, hj, hnonempty, hc, hbt, save_token, get_token]

/-- Witness for the amended C2 at a concrete jwt-cookie answer. -/
theorem validate_success_with_jwt_cookie_witness :
    (validate_magic_link exampleAuthEmail (netConst (.resp respOkJwtCookie))
        1000 "magic" (some "user@example.org")).result = .ok (.obj []) ∧
    (validate_magic_link exampleAuthEmail (netConst (.resp respOkJwtCookie))
        1000 "magic" (some "user@example.org")).state.jwt_token = some "newtok" ∧
    (validate_magic_link exampleAuthEmail (netConst (.resp respOkJwtCookie))
        1000 "magic" (some "user@example.org")).state.token_expiry =
      some (1000 + 172800) ∧
    (validate_magic_link exampleAuthEmail (netConst (.resp respOkJwtCookie))
        1000 "magic" (some "user@example.org")).state.storage =
      save_token exampleAuthEmail.storage "user@example.org" "newtok" 1000 172800 ∧
    get_token (validate_magic_link exampleAuthEmail (netConst (.resp respOkJwtCookie))
        1000 "magic" (some "user@example.org")).state.storage "user@example.org" =
      some "newtok" ∧
    (((validate_magic_link exampleAuthEmail (netConst (.resp respOkJwtCookie))
        1000 "magic" (some "user@example.org")).state.storage.find?
        (fun p => p.1 == "user@example.org")).map (fun p => p.2.expiry)) =
      some (1000 + 172800) :=
  validate_success_with_jwt_cookie exampleAuthEmail (netConst (.resp respOkJwtCookie))
    1000 "magic" "user@example.org" "newtok" respOkJwtCookie (.obj [])
    (by decide) rfl (by decide) rfl rfl (by decide)

/-- C10: the cookie/token invariant — no token means no cookies, and a
held token `t` is nonempty with cookie set exactly its jwt pair — holds
of a freshly constructed manager and is preserved by `login`,
`validate_magic_link` and `logout` (`check_auth` returns no state in
this embedding, mirroring that the method assigns nothing); under it,
`get_cookies` is empty exactly in the unauthenticated state. -/
theorem auth_cookie_invariant (base magic email : String) (u : Bool)
    (st : List (String × StoredToken)) (s : AuthState) (net : Net) (now : Nat)
    (em : Option String) :
    authInv (AuthManager_init base st) ∧
    (authInv s → authInv (login s net email u).state) ∧
    (authInv s → authInv (validate_magic_link s net now magic em).state) ∧
    (authInv s → authInv (logout s net).state) ∧
    (authInv s → (get_cookies s = [] ↔ s.jwt_token = none)) := by
  refine ⟨authInv_of_none _ rfl rfl, ?_, ?_, ?_, ?_⟩
  · intro hi
    simp only [login]
    repeat' split
    all_goals first
      | exact authInv_of_some _ _ rfl (by simp_all [bne_iff_ne]) rfl
      | (rw [request_magic_link_state]
         first
           | exact authInv_of_none _ rfl rfl
           | exact authInv_same s _ hi rfl rfl)
  · intro hi
    simp only [validate_magic_link]
    repeat' split
    all_goals first
      | exact hi
      | exact authInv_of_some _ _ rfl (by simp_all [bne_iff_ne]) rfl
  · intro hi
    simp only [logout]
    repeat' split
    all_goals first
      | exact hi
      | exact authInv_of_none _ rfl rfl
  · intro hi
    constructor
    · intro hc
      cases hj : s.jwt_token with
      | none => rfl
      | some t =>
        have h2 := (hi.2 t hj).2
        rw [show get_cookies s = s.cookies from rfl] at hc
        rw [hc] at h2
        cases h2
    · intro hn
      exact hi.1 hn

/-- Witness for C10: the invariant holds of the fresh manager and is
preserved through each operation run from the concrete authenticated
state. -/
theorem auth_cookie_invariant_witness :
    authInv (AuthManager_init "https://atlas.example/api" []) ∧
    authInv (login exampleAuthTok (netConst (.exn "down"))
      "user@example.org" true).state ∧
    authInv (validate_magic_link exampleAuthTok (netConst (.exn "down"))
      1000 "magic" none).state ∧
    authInv (logout exampleAuthTok (netConst (.exn "down"))).state ∧
    (get_cookies exampleAuthTok = [] ↔ exampleAuthTok.jwt_token = none) :=
  ⟨(auth_cookie_invariant "https://atlas.example/api" "magic" "user@example.org" true
      [] exampleAuthTok (netConst (.exn "down")) 1000 none).1,
   (auth_cookie_invariant "https://atlas.example/api" "magic" "user@example.org" true
      [] exampleAuthTok (netConst (.exn "down")) 1000 none).2.1 exampleAuthTok_inv,
   (auth_cookie_invariant "https://atlas.example/api" "magic" "user@example.org" true
      [] exampleAuthTok (netConst (.exn "down")) 1000 none).2.2.1 exampleAuthTok_inv,
   (auth_cookie_invariant "https://atlas.example/api" "magic" "user@example.org" true
      [] exampleAuthTok (netConst (.exn "down")) 1000 none).2.2.2.1 exampleAuthTok_inv,
   (auth_cookie_invariant "https://atlas.example/api" "magic" "user@example.org" true
      [] exampleAuthTok (netConst (.exn "down")) 1000 none).2.2.2.2 exampleAuthTok_inv⟩

end Atlas
